import Mathlib

/-!
Verification development for the liquid-glass displacement pipeline.

* `displacement-maps.ts` (the field rasterizer, its three fragment shaders,
  the data-URL encoders and the module-level cache) is embedded below.  The
  rasterizer is modelled over `ℝ` with the fragment shader as an explicit
  parameter, since the shaders use `exp`, `sqrt`, `sin`, `cos` and `atan2`;
  the JavaScript source computes with IEEE doubles, and every quantity the
  theorems mention (products with zero, exact halves, byte rounding, and
  strict numeric bounds with ample margin) is identical for doubles and for
  exact real arithmetic.
* the elastic estimator (`useElasticEffects`) is embedded over `ℝ`.
* the cache / data-URL fallback logic and the `requestAnimationFrame`
  coalescing of `useMouseTracking` are control flow over strings, booleans
  and integers and are embedded as executable functions.

`Uint8ClampedArray` assignment clamps to `[0,255]` and rounds to nearest
with ties to even; `u8round`/`u8byte` model exactly that.
-/

namespace LiquidGlass

noncomputable section Raster

/-- Round to nearest integer, ties to even: the conversion performed by a
JavaScript `Uint8ClampedArray` store (after clamping). -/
def u8round (v : ℝ) : ℤ :=
  if v - ⌊v⌋ < 1/2 then ⌊v⌋
  else if 1/2 < v - ⌊v⌋ then ⌊v⌋ + 1
  else if ⌊v⌋ % 2 = 0 then ⌊v⌋ else ⌊v⌋ + 1

/-- `data[i] = Math.max(0, Math.min(255, v))` followed by the
`Uint8ClampedArray` round-to-nearest-even conversion. -/
def u8byte (v : ℝ) : ℤ :=
  u8round (max 0 (min 255 v))

/-- `const uv: Vec2 = { x: x / width, y: y / height }`. -/
def uvAt (w h x y : ℕ) : ℝ × ℝ :=
  ((x : ℝ) / w, (y : ℝ) / h)

/-- `const dx = pos.x * width - x` for `pos = fragment(uv)`. -/
def rawDx (frag : ℝ × ℝ → ℝ × ℝ) (w h x y : ℕ) : ℝ :=
  (frag (uvAt w h x y)).1 * w - x

/-- `const dy = pos.y * height - y` for `pos = fragment(uv)`. -/
def rawDy (frag : ℝ × ℝ → ℝ × ℝ) (w h x y : ℕ) : ℝ :=
  (frag (uvAt w h x y)).2 * h - y

/-- The absolute values fed to `maxScale = Math.max(maxScale, |dx|, |dy|)`,
in the row-major order of the first loop (`rawValues` holds the signed
values; pixel `i` of the scan has `x = i % width`, `y = i / width`). -/
def rawAbsList (frag : ℝ × ℝ → ℝ × ℝ) (w h : ℕ) : List ℝ :=
  (List.range (w * h)).flatMap fun i =>
    [|rawDx frag w h (i % w) (i / w)|, |rawDy frag w h (i % w) (i / w)|]

/-- `maxScale` after the first loop and the floor
`maxScale = maxScale > 0 ? Math.max(maxScale, 1) : 1`. -/
def maxScaleVal (frag : ℝ × ℝ → ℝ × ℝ) (w h : ℕ) : ℝ :=
  if 0 < (rawAbsList frag w h).foldl max 0
  then max ((rawAbsList frag w h).foldl max 0) 1
  else 1

/-- `edgeDistance = Math.min(x, y, width - x - 1, height - y - 1)` (a natural
number for in-range pixels). -/
def edgeDistanceAt (w h x y : ℕ) : ℕ :=
  min (min x y) (min (w - x - 1) (h - y - 1))

/-- `edgeFactor = Math.min(1, edgeDistance / 2)`. -/
def edgeFactorAt (w h x y : ℕ) : ℝ :=
  min 1 ((edgeDistanceAt w h x y : ℝ) / 2)

/-- `smoothedDx = dx * edgeFactor`; for in-range pixels the second loop's
`rawValues[rawIndex++] ?? 0` reads back exactly the `dx` the first loop
pushed for the same `(x, y)`. -/
def smoothedDx (frag : ℝ × ℝ → ℝ × ℝ) (w h x y : ℕ) : ℝ :=
  rawDx frag w h x y * edgeFactorAt w h x y

/-- `smoothedDy = dy * edgeFactor`. -/
def smoothedDy (frag : ℝ × ℝ → ℝ × ℝ) (w h x y : ℕ) : ℝ :=
  rawDy frag w h x y * edgeFactorAt w h x y

/-- Red channel byte of pixel `(x, y)`:
`data[pixelIndex] = Math.max(0, Math.min(255, (smoothedDx / maxScale + 0.5) * 255))`. -/
def pixelR (frag : ℝ × ℝ → ℝ × ℝ) (w h x y : ℕ) : ℤ :=
  u8byte ((smoothedDx frag w h x y / maxScaleVal frag w h + 1/2) * 255)

/-- Green channel byte of pixel `(x, y)` (the blue channel is stored equal to
it, and alpha is 255). -/
def pixelG (frag : ℝ × ℝ → ℝ × ℝ) (w h x y : ℕ) : ℤ :=
  u8byte ((smoothedDy frag w h x y / maxScaleVal frag w h + 1/2) * 255)

/-- The decoding the spec claims: `(channel/255*2 - 1) * maxScale`. -/
def decodeClaim (c : ℤ) (m : ℝ) : ℝ :=
  ((c : ℝ) / 255 * 2 - 1) * m

/-- The decoding that actually inverts the stored encoding
`channel = (raw/maxScale + 0.5) * 255`: namely `(channel/255 - 0.5) * maxScale`. -/
def decodeFixed (c : ℤ) (m : ℝ) : ℝ :=
  ((c : ℝ) / 255 - 1/2) * m

/-- `Math.atan2(y, x)`, i.e. the argument of the complex number `x + y*I`
(JavaScript and `Complex.arg` agree, in particular both give `0` at the
origin). -/
def atan2 (y x : ℝ) : ℝ :=
  Complex.arg ⟨x, y⟩

/-- `fragmentShaders.standard`. -/
def fragStandard (uv : ℝ × ℝ) : ℝ × ℝ :=
  let centerX := uv.1 - 0.5
  let centerY := uv.2 - 0.5
  let distFromCenter := Real.sqrt (centerX * centerX + centerY * centerY)
  let lensStrength := Real.exp (-distFromCenter * 2.5) * 0.15
  let r2 := centerX * centerX + centerY * centerY
  let distortion := 1 + r2 * lensStrength
  (centerX * distortion + 0.5, centerY * distortion + 0.5)

/-- `fragmentShaders.polar`. -/
def fragPolar (uv : ℝ × ℝ) : ℝ × ℝ :=
  let centerX := uv.1 - 0.5
  let centerY := uv.2 - 0.5
  let radius := Real.sqrt (centerX * centerX + centerY * centerY)
  let angle := atan2 centerY centerX
  let radialEffect := Real.exp (-radius * 3) * 0.2
  let angularOffset := Real.sin (angle * 3) * radialEffect * 0.3
  let newRadius := radius * (1 + radialEffect)
  let newAngle := angle + angularOffset
  (Real.cos newAngle * newRadius + 0.5, Real.sin newAngle * newRadius + 0.5)

/-- `fragmentShaders.prominent`. -/
def fragProminent (uv : ℝ × ℝ) : ℝ × ℝ :=
  let centerX := uv.1 - 0.5
  let centerY := uv.2 - 0.5
  let wave1 := Real.sin (uv.1 * Real.pi * 4) * Real.sin (uv.2 * Real.pi * 4)
  let wave2 := Real.cos (uv.1 * Real.pi * 6) * Real.cos (uv.2 * Real.pi * 6)
  let wave3 := Real.sin ((uv.1 + uv.2) * Real.pi * 8)
  let distFromCenter := Real.sqrt (centerX * centerX + centerY * centerY)
  let falloff := Real.exp (-distFromCenter * 2)
  let displacement := (wave1 * 0.4 + wave2 * 0.3 + wave3 * 0.3) * falloff * 0.25
  (centerX + displacement * centerX + 0.5, centerY + displacement * centerY + 0.5)

/-- The three displacement-map variants. -/
inductive Variant
  | standard
  | polar
  | prominent
deriving DecidableEq

/-- `fragmentShaders[type]`. -/
def fragmentShaders : Variant → (ℝ × ℝ → ℝ × ℝ)
  | .standard => fragStandard
  | .polar => fragPolar
  | .prominent => fragProminent

/-- R channel byte of `generateDisplacementMapData(type, width, height)` at
pixel `(x, y)`. -/
def dataR (v : Variant) (w h x y : ℕ) : ℤ :=
  pixelR (fragmentShaders v) w h x y

/-- G channel byte of `generateDisplacementMapData(type, width, height)` at
pixel `(x, y)`. -/
def dataG (v : Variant) (w h x y : ℕ) : ℤ :=
  pixelG (fragmentShaders v) w h x y

/-- Magnitude of deviation of pixel `(x, y)`'s R and G bytes from mid-gray
(128). -/
def channelDev (v : Variant) (w h x y : ℕ) : ℤ :=
  max |dataR v w h x y - 128| |dataG v w h x y - 128|

/-- The largest R/G deviation from mid-gray over the four center-most pixels
(`x, y ∈ {1, 2}`) of the standard field at 4×4. -/
def centerDevMax : ℤ :=
  max (max (channelDev .standard 4 4 1 1) (channelDev .standard 4 4 1 2))
    (max (channelDev .standard 4 4 2 1) (channelDev .standard 4 4 2 2))

end Raster

/-!
## Elastic transform estimator (`useElasticEffects`)

The hook's three callbacks are embedded as pure functions of the pointer
position (`globalMousePos`), the glass element's bounding client rect, the
`glassSize` prop and `elasticity`.  The `glassRef.current` null-guards are
dropped: the model corresponds to the case where the element exists (the
null case returns the same identity values).  `calculateDirectionalScale`
formats its result as a CSS string in the source; the model returns the
`(scaleX, scaleY)` pair, with `(1, 1)` standing for `"scale(1)"`.
-/

/-- A DOM bounding client rect (`left`, `top`, `width`, `height`). -/
structure Rect where
  left : ℝ
  top : ℝ
  width : ℝ
  height : ℝ

noncomputable section Elastic

/-- `pillCenterX = rect.left + rect.width / 2`. -/
def pillCenterX (r : Rect) : ℝ := r.left + r.width / 2

/-- `pillCenterY = rect.top + rect.height / 2`. -/
def pillCenterY (r : Rect) : ℝ := r.top + r.height / 2

/-- `activationZone = 200`. -/
def activationZone : ℝ := 200

/-- Euclidean distance from the pointer to the nearest point of the pill's
bounding box: `sqrt(edgeDistanceX^2 + edgeDistanceY^2)` with
`edgeDistanceX = max(0, |mouse.x - pillCenterX| - pillWidth/2)` (and
symmetrically for y).  Computed identically inside
`calculateDirectionalScale` and `calculateFadeInFactor`. -/
def edgeDist (mouse : ℝ × ℝ) (r : Rect) (size : ℝ × ℝ) : ℝ :=
  let eX := max 0 (|mouse.1 - pillCenterX r| - size.1 / 2)
  let eY := max 0 (|mouse.2 - pillCenterY r| - size.2 / 2)
  Real.sqrt (eX * eX + eY * eY)

/-- Distance from the pointer to the pill center:
`sqrt(deltaX^2 + deltaY^2)`. -/
def centerDist (mouse : ℝ × ℝ) (r : Rect) : ℝ :=
  Real.sqrt ((mouse.1 - pillCenterX r) * (mouse.1 - pillCenterX r) +
    (mouse.2 - pillCenterY r) * (mouse.2 - pillCenterY r))

/-- `calculateDirectionalScale` (result as the `(scaleX, scaleY)` pair).
Note the JavaScript guard `!globalMousePos.x || !globalMousePos.y`: a
coordinate equal to `0` is falsy and yields `"scale(1)"`. -/
def calculateDirectionalScale (mouse : ℝ × ℝ) (r : Rect) (size : ℝ × ℝ)
    (elasticity : ℝ) : ℝ × ℝ :=
  if mouse.1 = 0 ∨ mouse.2 = 0 then (1, 1)
  else
    let dX := mouse.1 - pillCenterX r
    let dY := mouse.2 - pillCenterY r
    if activationZone < edgeDist mouse r size then (1, 1)
    else
      let fadeInFactor := 1 - edgeDist mouse r size / activationZone
      if centerDist mouse r = 0 then (1, 1)
      else
        let nX := dX / centerDist mouse r
        let nY := dY / centerDist mouse r
        let s := min (centerDist mouse r / 300) 1 * elasticity * fadeInFactor
        (max 0.8 (1 + |nX| * s * 0.3 - |nY| * s * 0.15),
         max 0.8 (1 + |nY| * s * 0.3 - |nX| * s * 0.15))

/-- `calculateFadeInFactor`.  A pointer coordinate equal to `0` is falsy and
yields `0`. -/
def calculateFadeInFactor (mouse : ℝ × ℝ) (r : Rect) (size : ℝ × ℝ) : ℝ :=
  if mouse.1 = 0 ∨ mouse.2 = 0 then 0
  else if activationZone < edgeDist mouse r size then 0
  else 1 - edgeDist mouse r size / activationZone

/-- `calculateElasticTranslation`:
`(mouse - pillCenter) * elasticity * 0.1 * fadeInFactor`. -/
def calculateElasticTranslation (mouse : ℝ × ℝ) (r : Rect) (size : ℝ × ℝ)
    (elasticity : ℝ) : ℝ × ℝ :=
  let f := calculateFadeInFactor mouse r size
  ((mouse.1 - pillCenterX r) * elasticity * 0.1 * f,
   (mouse.2 - pillCenterY r) * elasticity * 0.1 * f)

/-- Squared Euclidean magnitude of a translation vector (used to compare
translation magnitudes without taking square roots). -/
def magSq (p : ℝ × ℝ) : ℝ := p.1 * p.1 + p.2 * p.2

end Elastic

/-!
## Cache and data-URL fallback (`generateDisplacementMap` control flow)

The environment-dependent pieces (DOM availability, the 2D context, the
exceptions the `try` blocks can observe, and the base64 payloads the two
encoders would produce on success) are parameters of `DispEnv`.  The throwing
bodies are modelled in `Except` and the `catch` handlers by matching on the
result, so "no exception propagates" is visible as totality of the final
`String`-valued functions.  The third component of
`generateDisplacementMap`'s result counts how many times this call invoked
the rasterizer `generateDisplacementMapData`.
-/

/-- Execution environment for `generateDisplacementMap`. -/
structure DispEnv where
  /-- `typeof window !== "undefined" && typeof document !== "undefined"`. -/
  hasDOM : Bool
  /-- `canvas.getContext("2d")` returns a context (not `null`). -/
  contextOk : Bool
  /-- some other canvas operation in `createCanvasDataUrl` throws. -/
  canvasThrows : Bool
  /-- the body of `createServerDataUrl` throws. -/
  serverThrows : Bool
  /-- `generateDisplacementMapData` throws (e.g. allocation failure). -/
  genThrows : Bool
  /-- base64 payload of `canvas.toDataURL()` on success, per cache key. -/
  canvasB64 : String → String
  /-- base64 payload computed by `createServerDataUrl` on success, per key. -/
  serverB64 : String → String

/-- The 1×1 GIF returned by the fallback paths. -/
def placeholderGif : String :=
  "data:image/gif;base64,R0lGODlhAQABAIAAAAAAAP///yH5BAEAAAAALAAAAAABAAEAAAIBRAA7"

/-- Body of `createCanvasDataUrl`'s `try` block. -/
def createCanvasDataUrlTry (env : DispEnv) (key : String) : Except String String :=
  if !env.contextOk then .error "Could not get 2D context"
  else if env.canvasThrows then .error "canvas operation threw"
  else .ok ("data:image/png;base64," ++ env.canvasB64 key)

/-- `createCanvasDataUrl`: its `catch` logs a warning and returns `""`. -/
def createCanvasDataUrl (env : DispEnv) (key : String) : String :=
  match createCanvasDataUrlTry env key with
  | .ok s => s
  | .error _ => ""

/-- Body of `createServerDataUrl`'s `try` block. -/
def createServerDataUrlTry (env : DispEnv) (key : String) : Except String String :=
  if env.serverThrows then .error "server encoder threw"
  else .ok ("data:image/bmp;base64," ++ env.serverB64 key)

/-- `createServerDataUrl`: its `catch` returns the placeholder GIF. -/
def createServerDataUrl (env : DispEnv) (key : String) : String :=
  match createServerDataUrlTry env key with
  | .ok s => s
  | .error _ => placeholderGif

/-- The module-level `displacementCache` (`Map<string, string>`), newest
entry first. -/
def cacheGet (st : List (String × String)) (k : String) : Option String :=
  (st.find? fun p => p.1 == k).map (·.2)

/-- `displacementCache.set(cacheKey, dataUrl)`. -/
def cacheSet (st : List (String × String)) (k v : String) :
    List (String × String) :=
  (k, v) :: st

/-- `cacheKey = type + "-" + width + "-" + height` for the given variant. -/
def mkCacheKey (ty : String) (w h : ℕ) : String :=
  ty ++ "-" ++ toString w ++ "-" ++ toString h

/-- `typeof window !== "undefined" && typeof document !== "undefined"
? createCanvasDataUrl(...) : createServerDataUrl(...)`. -/
def dataUrlOf (env : DispEnv) (key : String) : String :=
  if env.hasDOM then createCanvasDataUrl env key
  else createServerDataUrl env key

/-- Body of `generateDisplacementMap`'s `try` block: run the rasterizer, pick
the encoder by environment, store the result in the cache. -/
def generateTry (env : DispEnv) (st : List (String × String)) (key : String) :
    Except String (String × List (String × String)) :=
  if env.genThrows then .error "generateDisplacementMapData threw"
  else .ok (dataUrlOf env key, cacheSet st key (dataUrlOf env key))

/-- The compute path of `generateDisplacementMap` (cache miss or falsy cached
value): the `try` block, with the `catch` returning the placeholder GIF and
leaving the cache unchanged.  The `ℕ` component counts rasterizer
invocations (the rasterizer is entered once, whether or not it throws). -/
def generateCompute (env : DispEnv) (st : List (String × String))
    (key : String) : String × List (String × String) × ℕ :=
  match generateTry env st key with
  | .ok (u, st') => (u, st', 1)
  | .error _ => (placeholderGif, st, 1)

/-- `generateDisplacementMap(type, width, height)` as a state-passing
function.  `if (cached) return cached` is a JavaScript truthiness test, so a
cached empty string is *not* returned from the cache. -/
def generateDisplacementMap (env : DispEnv) (st : List (String × String))
    (ty : String) (w h : ℕ) : String × List (String × String) × ℕ :=
  let key := mkCacheKey ty w h
  match cacheGet st key with
  | some cached =>
      if cached ≠ "" then (cached, st, 0)
      else generateCompute env st key
  | none => generateCompute env st key

/-!
## Pointer-move coalescing (`useMouseTracking.handleMouseMove`)

`rafIdRef` is modelled as `Option MouseEv`: `some e` means a
`requestAnimationFrame` callback is currently scheduled and its closure
captured the event `e`.  `handleMouseMove` returns early when a callback is
pending (`if (rafIdRef.current) return`), otherwise it schedules a callback
over the current event.  At the frame boundary the scheduled callback (if
any) runs exactly once, clears the ref, and recomputes from the captured
event's `clientX`/`clientY`.
-/

/-- A pointer-move event (`clientX`, `clientY`). -/
structure MouseEv where
  clientX : ℤ
  clientY : ℤ
deriving DecidableEq

/-- One `handleMouseMove` call: drop the event if a frame callback is
pending, otherwise schedule a callback capturing this event. -/
def handleMouseMove (e : MouseEv) (raf : Option MouseEv) : Option MouseEv :=
  match raf with
  | some pending => some pending
  | none => some e

/-- A burst of pointer-move events processed before the next frame
boundary. -/
def processBurst (es : List MouseEv) (raf : Option MouseEv) : Option MouseEv :=
  es.foldl (fun st e => handleMouseMove e st) raf

/-- The `(clientX, clientY)` the frame callback reads, if one is scheduled. -/
def frameData (raf : Option MouseEv) : Option (ℤ × ℤ) :=
  raf.map fun e => (e.clientX, e.clientY)

/-- How many recomputations the frame boundary performs. -/
def frameRecomputations (raf : Option MouseEv) : ℕ :=
  if raf.isSome then 1 else 0

/-- A browser-like environment whose canvas lacks a 2D context: `window` and
`document` exist but `canvas.getContext("2d")` returns `null` (e.g. a test
DOM). -/
def envNoCtx : DispEnv :=
  DispEnv.mk true false false false false (fun _ => "") (fun _ => "")

/-- A healthy browser environment: DOM present, 2D context available, no
exceptions; `toDataURL` produces some PNG payload. -/
def envOk : DispEnv :=
  DispEnv.mk true true false false false (fun _ => "iVBORw0KGgo") (fun _ => "")

/-- A server environment in which `generateDisplacementMapData` itself
throws. -/
def envGenThrow : DispEnv :=
  DispEnv.mk false false false false true (fun _ => "") (fun _ => "")

/-!
## Helper lemmas
-/

theorem u8round_eq_of_lt {v : ℝ} {n : ℤ} (h₁ : (n : ℝ) - 1/2 < v)
    (h₂ : v < (n : ℝ) + 1/2) : u8round v = n := by
  unfold u8round
  rcases le_or_lt (n : ℝ) v with hge | hlt
  · have hf : ⌊v⌋ = n := Int.floor_eq_iff.mpr ⟨hge, by linarith⟩
    rw [hf, if_pos (by linarith)]
  · have hf : ⌊v⌋ = n - 1 :=
      Int.floor_eq_iff.mpr ⟨by push_cast; linarith, by push_cast; linarith⟩
    rw [hf, if_neg (by push_cast; linarith), if_pos (by push_cast; linarith)]
    omega

theorem abs_u8round_sub_le (v : ℝ) : |(u8round v : ℝ) - v| ≤ 1/2 := by
  unfold u8round
  have h0 : (⌊v⌋ : ℝ) ≤ v := Int.floor_le v
  have h1 : v < ⌊v⌋ + 1 := Int.lt_floor_add_one v
  split
  · rw [abs_le]; constructor <;> linarith
  · split
    · rw [abs_le]; push_cast; constructor <;> linarith
    · split <;> (rw [abs_le]; push_cast; constructor <;> linarith)

theorem u8round_halfway : u8round ((255 : ℝ) / 2) = 128 := by
  unfold u8round
  have hf : ⌊(255 : ℝ) / 2⌋ = 127 := Int.floor_eq_iff.mpr ⟨by norm_num, by norm_num⟩
  rw [hf, if_neg (by norm_num), if_neg (by norm_num), if_neg (by decide)]
  decide

theorem u8byte_eq_u8round {v : ℝ} (h₀ : 0 ≤ v) (h₁ : v ≤ 255) :
    u8byte v = u8round v := by
  unfold u8byte
  rw [min_eq_right h₁, max_eq_right h₀]

theorem u8byte_halfway : u8byte ((255 : ℝ) / 2) = 128 := by
  rw [u8byte_eq_u8round (by norm_num) (by norm_num), u8round_halfway]

theorem foldl_max_le {l : List ℝ} {a c : ℝ} (ha : a ≤ c)
    (h : ∀ v ∈ l, v ≤ c) : l.foldl max a ≤ c := by
  induction l generalizing a with
  | nil => simpa using ha
  | cons x xs ih =>
      simp only [List.foldl_cons]
      exact ih (max_le ha (h x (by simp))) fun v hv => h v (by simp [hv])

theorem one_le_maxScaleVal (frag : ℝ × ℝ → ℝ × ℝ) (w h : ℕ) :
    1 ≤ maxScaleVal frag w h := by
  unfold maxScaleVal
  split
  · exact le_max_right _ _
  · exact le_refl 1

theorem maxScaleVal_pos (frag : ℝ × ℝ → ℝ × ℝ) (w h : ℕ) :
    0 < maxScaleVal frag w h :=
  lt_of_lt_of_le one_pos (one_le_maxScaleVal frag w h)

theorem maxScaleVal_eq_one {frag : ℝ × ℝ → ℝ × ℝ} {w h : ℕ}
    (hm : (rawAbsList frag w h).foldl max 0 ≤ 1) : maxScaleVal frag w h = 1 := by
  unfold maxScaleVal
  split
  · exact max_eq_right hm
  · rfl

theorem edgeFactorAt_border {w h x y : ℕ} (hx : x < w) (hy : y < h)
    (hb : x = 0 ∨ y = 0 ∨ x = w - 1 ∨ y = h - 1) :
    edgeFactorAt w h x y = 0 := by
  have hd : edgeDistanceAt w h x y = 0 := by
    unfold edgeDistanceAt
    omega
  unfold edgeFactorAt
  rw [hd]
  norm_num

theorem pixelR_border {frag : ℝ × ℝ → ℝ × ℝ} {w h x y : ℕ} (hx : x < w)
    (hy : y < h) (hb : x = 0 ∨ y = 0 ∨ x = w - 1 ∨ y = h - 1) :
    pixelR frag w h x y = 128 := by
  unfold pixelR smoothedDx
  rw [edgeFactorAt_border hx hy hb, mul_zero, zero_div, zero_add]
  rw [show ((1 : ℝ)/2) * 255 = 255/2 by norm_num]
  exact u8byte_halfway

theorem pixelG_border {frag : ℝ × ℝ → ℝ × ℝ} {w h x y : ℕ} (hx : x < w)
    (hy : y < h) (hb : x = 0 ∨ y = 0 ∨ x = w - 1 ∨ y = h - 1) :
    pixelG frag w h x y = 128 := by
  unfold pixelG smoothedDy
  rw [edgeFactorAt_border hx hy hb, mul_zero, zero_div, zero_add]
  rw [show ((1 : ℝ)/2) * 255 = 255/2 by norm_num]
  exact u8byte_halfway

theorem rawAbsList_entry_bound {frag : ℝ × ℝ → ℝ × ℝ} {w h : ℕ} {c : ℝ}
    (hb : ∀ x y, x < w → y < h →
      |rawDx frag w h x y| ≤ c ∧ |rawDy frag w h x y| ≤ c) :
    ∀ v ∈ rawAbsList frag w h, v ≤ c := by
  intro v hv
  simp only [rawAbsList, List.mem_flatMap, List.mem_range, List.mem_cons,
    List.mem_singleton, List.not_mem_nil, or_false] at hv
  obtain ⟨i, hi, hv⟩ := hv
  have hw : 0 < w := by
    rcases Nat.eq_zero_or_pos w with h0 | h0
    · subst h0; simp at hi
    · exact h0
  have hxw : i % w < w := Nat.mod_lt _ hw
  have hyh : i / w < h := Nat.div_lt_of_lt_mul (by omega)
  rcases hv with h1 | h1 <;> rw [h1]
  · exact (hb _ _ hxw hyh).1
  · exact (hb _ _ hxw hyh).2

theorem channelDev_nonneg (v : Variant) (w h x y : ℕ) :
    0 ≤ channelDev v w h x y :=
  le_trans (abs_nonneg _) (le_max_left _ _)

theorem channelDev_border_eq_zero {v : Variant} {w h x y : ℕ} (hx : x < w)
    (hy : y < h) (hb : x = 0 ∨ y = 0 ∨ x = w - 1 ∨ y = h - 1) :
    channelDev v w h x y = 0 := by
  unfold channelDev dataR dataG
  rw [pixelR_border hx hy hb, pixelG_border hx hy hb]
  simp

/-- C2 (edge-zero invariant): for every variant and every width, height >= 4,
every pixel of the outermost ring of the rasterized field (x = 0, y = 0,
x = width-1 or y = height-1, corners included) has R and G channel bytes
exactly 128, i.e. encodes zero displacement. -/
theorem c2_edge_zero (v : Variant) {w h x y : ℕ} (hw4 : 4 ≤ w) (hh4 : 4 ≤ h)
    (hx : x < w) (hy : y < h)
    (hb : x = 0 ∨ y = 0 ∨ x = w - 1 ∨ y = h - 1) :
    dataR v w h x y = 128 ∧ dataG v w h x y = 128 := by
  unfold dataR dataG
  exact ⟨pixelR_border hx hy hb, pixelG_border hx hy hb⟩

theorem c2_edge_zero_witness :
    (4 ≤ 4 ∧ 0 < 4 ∧ 2 < 4 ∧ ((0 : ℕ) = 0 ∨ (2 : ℕ) = 0 ∨ 0 = 4 - 1 ∨ 2 = 4 - 1)) ∧
      dataR .standard 4 4 0 2 = 128 ∧ dataG .standard 4 4 0 2 = 128 :=
  ⟨⟨by decide, by decide, by decide, by decide⟩,
    c2_edge_zero .standard (by decide) (by decide) (by decide) (by decide)
      (by decide)⟩

/-- C7 (standard field at 4×4): every border pixel of the standard variant at
width = height = 4 has R and G bytes exactly 128, and the deviation of any
pixel's R/G bytes from 128 is at most the largest deviation among the four
center-most pixels (x, y in {1, 2}). -/
theorem c7_standard_4x4 (x y : ℕ) (hx : x < 4) (hy : y < 4) :
    ((x = 0 ∨ y = 0 ∨ x = 3 ∨ y = 3) →
      dataR .standard 4 4 x y = 128 ∧ dataG .standard 4 4 x y = 128) ∧
    channelDev .standard 4 4 x y ≤ centerDevMax := by
  constructor
  · intro hb
    unfold dataR dataG
    exact ⟨pixelR_border hx hy (by omega), pixelG_border hx hy (by omega)⟩
  · have hnn : (0 : ℤ) ≤ centerDevMax :=
      le_trans (channelDev_nonneg .standard 4 4 1 1)
        (le_trans (le_max_left _ _) (le_max_left _ _))
    by_cases hb : x = 0 ∨ y = 0 ∨ x = 3 ∨ y = 3
    · rw [channelDev_border_eq_zero hx hy (by omega)]
      exact hnn
    · have hx12 : x = 1 ∨ x = 2 := by omega
      have hy12 : y = 1 ∨ y = 2 := by omega
      unfold centerDevMax
      rcases hx12 with rfl | rfl <;> rcases hy12 with rfl | rfl
      · exact le_trans (le_max_left _ _) (le_max_left _ _)
      · exact le_trans (le_max_right _ _) (le_max_left _ _)
      · exact le_trans (le_max_left _ _) (le_max_right _ _)
      · exact le_trans (le_max_right _ _) (le_max_right _ _)

theorem c7_standard_4x4_witness :
    (1 < 4 ∧ 0 < 4) ∧
      (((1 : ℕ) = 0 ∨ (0 : ℕ) = 0 ∨ (1 : ℕ) = 3 ∨ (0 : ℕ) = 3) →
        dataR .standard 4 4 1 0 = 128 ∧ dataG .standard 4 4 1 0 = 128) ∧
      channelDev .standard 4 4 1 0 ≤ centerDevMax :=
  ⟨⟨by decide, by decide⟩, c7_standard_4x4 1 0 (by decide) (by decide)⟩

/-- C8 (normalization safety): for every fragment shader and size, the
normalization divisor maxScale is at least 1; and when the raw displacement
field is identically zero, maxScale is exactly 1 and every pixel encodes to
mid-gray (128) without error. -/
theorem c8_normalization_safety (frag : ℝ × ℝ → ℝ × ℝ) (w h : ℕ) :
    1 ≤ maxScaleVal frag w h ∧
    ((∀ x y, x < w → y < h →
        rawDx frag w h x y = 0 ∧ rawDy frag w h x y = 0) →
      maxScaleVal frag w h = 1 ∧
      ∀ x y, x < w → y < h →
        pixelR frag w h x y = 128 ∧ pixelG frag w h x y = 128) := by
  refine ⟨one_le_maxScaleVal frag w h, fun hz => ⟨?_, ?_⟩⟩
  · refine maxScaleVal_eq_one (foldl_max_le (by norm_num) ?_)
    refine rawAbsList_entry_bound fun x y hx hy => ?_
    rw [(hz x y hx hy).1, (hz x y hx hy).2]
    norm_num
  · intro x y hx hy
    constructor
    · unfold pixelR smoothedDx
      rw [(hz x y hx hy).1, zero_mul, zero_div, zero_add,
        show ((1 : ℝ)/2) * 255 = 255/2 by norm_num]
      exact u8byte_halfway
    · unfold pixelG smoothedDy
      rw [(hz x y hx hy).2, zero_mul, zero_div, zero_add,
        show ((1 : ℝ)/2) * 255 = 255/2 by norm_num]
      exact u8byte_halfway

theorem c8_normalization_safety_witness :
    (∀ x y, x < 1 → y < 1 →
      rawDx (fun p => p) 1 1 x y = 0 ∧ rawDy (fun p => p) 1 1 x y = 0) ∧
    1 ≤ maxScaleVal (fun p => p) 1 1 ∧
    maxScaleVal (fun p => p) 1 1 = 1 ∧
    pixelR (fun p => p) 1 1 0 0 = 128 ∧ pixelG (fun p => p) 1 1 0 0 = 128 := by
  have hz : ∀ x y, x < 1 → y < 1 →
      rawDx (fun p => p) 1 1 x y = 0 ∧ rawDy (fun p => p) 1 1 x y = 0 := by
    intro x y hx hy
    interval_cases x
    interval_cases y
    constructor <;> norm_num [rawDx, rawDy, uvAt]
  have hmain := c8_normalization_safety (fun p => p) 1 1
  exact ⟨hz, hmain.1, (hmain.2 hz).1, ((hmain.2 hz).2 0 0 (by norm_num) (by norm_num)).1,
    ((hmain.2 hz).2 0 0 (by norm_num) (by norm_num)).2⟩


theorem encode_decode_close {s M : ℝ} (hM : 1 ≤ M) (hs : |s| ≤ M / 2) :
    |decodeFixed (u8byte ((s / M + 1/2) * 255)) M - s| ≤ M / 255 := by
  have hM0 : 0 < M := lt_of_lt_of_le one_pos hM
  have h1 : |s / M| ≤ 1/2 := by
    rw [abs_div, abs_of_pos hM0, div_le_iff₀ hM0]
    linarith
  obtain ⟨h1l, h1r⟩ := abs_le.mp h1
  have ht0 : 0 ≤ (s / M + 1/2) * 255 := by linarith
  have ht1 : (s / M + 1/2) * 255 ≤ 255 := by linarith
  rw [u8byte_eq_u8round ht0 ht1]
  have hr := abs_u8round_sub_le ((s / M + 1/2) * 255)
  set c : ℤ := u8round ((s / M + 1/2) * 255) with hc
  have key : decodeFixed c M - s = (((c : ℝ) - (s / M + 1/2) * 255) / 255) * M := by
    rw [decodeFixed]
    field_simp
    ring
  rw [key, abs_mul, abs_div, abs_of_pos hM0]
  have h255 : |(255 : ℝ)| = 255 := by norm_num
  rw [h255]
  calc |(c : ℝ) - (s / M + 1/2) * 255| / 255 * M ≤ (1/2) / 255 * M := by gcongr
    _ ≤ M / 255 := by linarith

/-- C1 amended (encoding round-trip): for every fragment shader, size and
pixel, decoding a stored channel byte as `(channel/255 - 0.5) * maxScale`
(the inverse of the encoding the code performs; the spec's stated formula
`(channel/255*2 - 1) * maxScale` doubles the value) reconstructs the
edge-smoothed displacement to within `maxScale/255`, provided the smoothed
displacement does not exceed `maxScale/2` in magnitude (beyond that the
encoder clips the channel value). -/
theorem c1_encoding_roundtrip (frag : ℝ × ℝ → ℝ × ℝ) (w h x y : ℕ) :
    (|smoothedDx frag w h x y| ≤ maxScaleVal frag w h / 2 →
      |decodeFixed (pixelR frag w h x y) (maxScaleVal frag w h) -
        smoothedDx frag w h x y| ≤ maxScaleVal frag w h / 255) ∧
    (|smoothedDy frag w h x y| ≤ maxScaleVal frag w h / 2 →
      |decodeFixed (pixelG frag w h x y) (maxScaleVal frag w h) -
        smoothedDy frag w h x y| ≤ maxScaleVal frag w h / 255) := by
  constructor
  · intro hs
    unfold pixelR
    exact encode_decode_close (one_le_maxScaleVal frag w h) hs
  · intro hs
    unfold pixelG
    exact encode_decode_close (one_le_maxScaleVal frag w h) hs

theorem c1_encoding_roundtrip_witness :
    (|smoothedDx (fun p => p) 1 1 0 0| ≤ maxScaleVal (fun p => p) 1 1 / 2 ∧
     |smoothedDy (fun p => p) 1 1 0 0| ≤ maxScaleVal (fun p => p) 1 1 / 2) ∧
    |decodeFixed (pixelR (fun p => p) 1 1 0 0) (maxScaleVal (fun p => p) 1 1) -
      smoothedDx (fun p => p) 1 1 0 0| ≤ maxScaleVal (fun p => p) 1 1 / 255 ∧
    |decodeFixed (pixelG (fun p => p) 1 1 0 0) (maxScaleVal (fun p => p) 1 1) -
      smoothedDy (fun p => p) 1 1 0 0| ≤ maxScaleVal (fun p => p) 1 1 / 255 := by
  have hM := one_le_maxScaleVal (fun p : ℝ × ℝ => p) 1 1
  have hx : smoothedDx (fun p => p) 1 1 0 0 = 0 := by
    simp [smoothedDx, edgeFactorAt, edgeDistanceAt]
  have hy : smoothedDy (fun p => p) 1 1 0 0 = 0 := by
    simp [smoothedDy, edgeFactorAt, edgeDistanceAt]
  have hsx : |smoothedDx (fun p => p) 1 1 0 0| ≤ maxScaleVal (fun p => p) 1 1 / 2 := by
    rw [hx, abs_zero]
    linarith
  have hsy : |smoothedDy (fun p => p) 1 1 0 0| ≤ maxScaleVal (fun p => p) 1 1 / 2 := by
    rw [hy, abs_zero]
    linarith
  exact ⟨⟨hsx, hsy⟩, (c1_encoding_roundtrip (fun p => p) 1 1 0 0).1 hsx,
    (c1_encoding_roundtrip (fun p => p) 1 1 0 0).2 hsy⟩

theorem rawDx_std8_eq (x y : ℕ) :
    rawDx fragStandard 8 8 x y =
      8 * ((x : ℝ)/8 - 1/2) *
        ((((x : ℝ)/8 - 1/2) * ((x : ℝ)/8 - 1/2) +
          ((y : ℝ)/8 - 1/2) * ((y : ℝ)/8 - 1/2)) *
          (Real.exp (-Real.sqrt (((x : ℝ)/8 - 1/2) * ((x : ℝ)/8 - 1/2) +
            ((y : ℝ)/8 - 1/2) * ((y : ℝ)/8 - 1/2)) * 2.5) * 0.15)) := by
  simp only [rawDx, uvAt, fragStandard]
  norm_num
  ring

theorem rawDy_std8_eq (x y : ℕ) :
    rawDy fragStandard 8 8 x y =
      8 * ((y : ℝ)/8 - 1/2) *
        ((((x : ℝ)/8 - 1/2) * ((x : ℝ)/8 - 1/2) +
          ((y : ℝ)/8 - 1/2) * ((y : ℝ)/8 - 1/2)) *
          (Real.exp (-Real.sqrt (((x : ℝ)/8 - 1/2) * ((x : ℝ)/8 - 1/2) +
            ((y : ℝ)/8 - 1/2) * ((y : ℝ)/8 - 1/2)) * 2.5) * 0.15)) := by
  simp only [rawDy, uvAt, fragStandard]
  norm_num
  ring

theorem edgeFactorAt_8822 : edgeFactorAt 8 8 2 2 = 1 := by
  norm_num [edgeFactorAt, edgeDistanceAt]

theorem smoothedDx_std8_22 :
    smoothedDx fragStandard 8 8 2 2 =
      -(3/80) * Real.exp (-Real.sqrt (1/8) * 2.5) := by
  unfold smoothedDx
  rw [rawDx_std8_eq 2 2, edgeFactorAt_8822]
  norm_num
  ring

theorem std_term_bound {c s E : ℝ} (hc : |c| ≤ 1/2) (hs0 : 0 ≤ s)
    (hs : s ≤ 1/2) (hE0 : 0 < E) (hE1 : E ≤ 1) :
    |8 * c * (s * (E * 0.15))| ≤ 3/10 := by
  rw [abs_mul, abs_mul]
  have e8 : |(8 : ℝ)| = 8 := by norm_num
  rw [e8, abs_of_nonneg (by positivity : (0:ℝ) ≤ s * (E * 0.15))]
  calc 8 * |c| * (s * (E * 0.15)) ≤ 8 * (1/2) * ((1/2) * (1 * 0.15)) := by gcongr
    _ = 3/10 := by norm_num

theorem uv8_half_bound {x : ℕ} (hx : x < 8) : |(x : ℝ)/8 - 1/2| ≤ 1/2 := by
  have h0 : (0 : ℝ) ≤ x := Nat.cast_nonneg x
  have h8 : (x : ℝ) ≤ 8 := by
    have : (x : ℝ) < 8 := by exact_mod_cast hx
    linarith
  rw [abs_le]
  constructor <;> [linarith; linarith]

theorem exp_factor_le_one (u : ℝ) :
    Real.exp (-Real.sqrt u * 2.5) ≤ 1 := by
  have h := Real.sqrt_nonneg u
  calc Real.exp (-Real.sqrt u * 2.5) ≤ Real.exp 0 :=
        Real.exp_le_exp.mpr (by nlinarith)
    _ = 1 := Real.exp_zero

theorem sum_sq_half {a b : ℝ} (ha : |a| ≤ 1/2) (hb : |b| ≤ 1/2) :
    a * a + b * b ≤ 1/2 := by
  obtain ⟨ha1, ha2⟩ := abs_le.mp ha
  obtain ⟨hb1, hb2⟩ := abs_le.mp hb
  nlinarith

theorem maxScale_std8 : maxScaleVal fragStandard 8 8 = 1 := by
  apply maxScaleVal_eq_one
  apply foldl_max_le (by norm_num)
  apply rawAbsList_entry_bound
  intro x y hx hy
  have ha := uv8_half_bound hx
  have hb := uv8_half_bound hy
  constructor
  · refine le_trans ?_ (by norm_num : (3/10 : ℝ) ≤ 1)
    rw [rawDx_std8_eq x y]
    exact std_term_bound ha (add_nonneg (mul_self_nonneg _) (mul_self_nonneg _))
      (sum_sq_half ha hb) (Real.exp_pos _) (exp_factor_le_one _)
  · refine le_trans ?_ (by norm_num : (3/10 : ℝ) ≤ 1)
    rw [rawDy_std8_eq x y]
    exact std_term_bound hb (add_nonneg (mul_self_nonneg _) (mul_self_nonneg _))
      (sum_sq_half ha hb) (Real.exp_pos _) (exp_factor_le_one _)

theorem sqrt_eighth_lb : (7071/20000 : ℝ) ≤ Real.sqrt (1/8) :=
  (Real.le_sqrt (by norm_num) (by norm_num)).mpr (by norm_num)

theorem sqrt_eighth_ub : Real.sqrt (1/8) ≤ 8839/25000 :=
  (Real.sqrt_le_left (by norm_num)).mpr (by norm_num)

theorem exp_t_lb : (2414/1000 : ℝ) ≤ Real.exp (7071/8000) := by
  refine le_trans ?_ (Real.sum_le_exp_of_nonneg (by norm_num) 5)
  norm_num [Finset.sum_range_succ, Nat.factorial]

theorem exp_t_ub : Real.exp (8839/10000) ≤ 2422/1000 := by
  refine le_trans (Real.exp_bound' (by norm_num) (by norm_num) (n := 4) (by norm_num)) ?_
  norm_num [Finset.sum_range_succ, Nat.factorial]

theorem E_lb : (4128/10000 : ℝ) ≤ Real.exp (-Real.sqrt (1/8) * 2.5) := by
  have h2 := sqrt_eighth_ub
  rw [show -Real.sqrt (1/8) * 2.5 = -(Real.sqrt (1/8) * 2.5) by ring, Real.exp_neg]
  have hmono : Real.exp (Real.sqrt (1/8) * 2.5) ≤ Real.exp (8839/10000) :=
    Real.exp_le_exp.mpr (by nlinarith)
  have hub : Real.exp (Real.sqrt (1/8) * 2.5) ≤ 2422/1000 := le_trans hmono exp_t_ub
  have hpos : (0 : ℝ) < Real.exp (Real.sqrt (1/8) * 2.5) := Real.exp_pos _
  rw [show (4128/10000 : ℝ) = (10000/4128 : ℝ)⁻¹ by norm_num]
  apply inv_anti₀ hpos
  calc Real.exp (Real.sqrt (1/8) * 2.5) ≤ 2422/1000 := hub
    _ ≤ 10000/4128 := by norm_num

theorem E_ub : Real.exp (-Real.sqrt (1/8) * 2.5) ≤ 4143/10000 := by
  have h1 := sqrt_eighth_lb
  rw [show -Real.sqrt (1/8) * 2.5 = -(Real.sqrt (1/8) * 2.5) by ring, Real.exp_neg]
  have hmono : Real.exp (7071/8000) ≤ Real.exp (Real.sqrt (1/8) * 2.5) :=
    Real.exp_le_exp.mpr (by nlinarith)
  have hlb : (2414/1000 : ℝ) ≤ Real.exp (Real.sqrt (1/8) * 2.5) := le_trans exp_t_lb hmono
  calc (Real.exp (Real.sqrt (1/8) * 2.5))⁻¹ ≤ (2414/1000 : ℝ)⁻¹ :=
        inv_anti₀ (by norm_num) hlb
    _ ≤ 4143/10000 := by norm_num

theorem dataR_std8_22 : dataR .standard 8 8 2 2 = 124 := by
  show pixelR fragStandard 8 8 2 2 = 124
  unfold pixelR
  rw [maxScale_std8, smoothedDx_std8_22]
  have hEl := E_lb
  have hEu := E_ub
  set E := Real.exp (-Real.sqrt (1/8) * 2.5) with hE
  have h0 : (0:ℝ) ≤ (-(3/80) * E / 1 + 1/2) * 255 := by nlinarith
  have h255 : (-(3/80) * E / 1 + 1/2) * 255 ≤ 255 := by nlinarith
  rw [u8byte_eq_u8round h0 h255]
  apply u8round_eq_of_lt
  · push_cast
    nlinarith
  · push_cast
    nlinarith

/-- C1 counterexample: for the standard variant at width = height = 8, the
interior pixel (2, 2) stores R byte 124 and maxScale is 1, yet decoding the
byte with the claimed formula `(channel/255*2 - 1) * maxScale` misses the
edge-smoothed displacement dx by more than 1/255 (the claimed formula
produces roughly twice the encoded value: the code stores
`raw/maxScale + 0.5`, not `(raw/maxScale + 1)/2`). -/
theorem c1_decode_counterexample :
    maxScaleVal (fragmentShaders .standard) 8 8 = 1 ∧
    dataR .standard 8 8 2 2 = 124 ∧
    (1 : ℝ)/255 <
      |decodeClaim (dataR .standard 8 8 2 2)
          (maxScaleVal (fragmentShaders .standard) 8 8) -
        smoothedDx (fragmentShaders .standard) 8 8 2 2| := by
  refine ⟨maxScale_std8, dataR_std8_22, ?_⟩
  rw [dataR_std8_22]
  show (1 : ℝ)/255 <
    |decodeClaim 124 (maxScaleVal fragStandard 8 8) - smoothedDx fragStandard 8 8 2 2|
  rw [maxScale_std8, smoothedDx_std8_22, decodeClaim]
  have hEl := E_lb
  have hEu := E_ub
  set E := Real.exp (-Real.sqrt (1/8) * 2.5) with hE
  have hneg : (((124 : ℤ) : ℝ)/255 * 2 - 1) * 1 - (-(3/80) * E) < 0 := by
    push_cast
    nlinarith
  rw [abs_of_neg hneg]
  push_cast
  nlinarith

theorem centerDist_self (r : Rect) :
    centerDist (pillCenterX r, pillCenterY r) r = 0 := by
  unfold centerDist
  simp

theorem calculateFadeInFactor_eq {mouse : ℝ × ℝ} {r : Rect} {size : ℝ × ℝ}
    (hg : ¬(mouse.1 = 0 ∨ mouse.2 = 0))
    (hz : edgeDist mouse r size ≤ activationZone) :
    calculateFadeInFactor mouse r size =
      1 - edgeDist mouse r size / activationZone := by
  unfold calculateFadeInFactor
  rw [if_neg hg, if_neg (not_lt.mpr hz)]

theorem magSq_translation {mouse : ℝ × ℝ} {r : Rect} {size : ℝ × ℝ} (e : ℝ)
    (hg : ¬(mouse.1 = 0 ∨ mouse.2 = 0))
    (hz : edgeDist mouse r size ≤ activationZone) :
    magSq (calculateElasticTranslation mouse r size e) =
      centerDist mouse r ^ 2 *
        (e * 0.1 * (1 - edgeDist mouse r size / activationZone)) ^ 2 := by
  unfold magSq calculateElasticTranslation
  rw [calculateFadeInFactor_eq hg hz]
  have hcd : centerDist mouse r ^ 2 =
      (mouse.1 - pillCenterX r) * (mouse.1 - pillCenterX r) +
      (mouse.2 - pillCenterY r) * (mouse.2 - pillCenterY r) := by
    unfold centerDist
    rw [Real.sq_sqrt (add_nonneg (mul_self_nonneg _) (mul_self_nonneg _))]
  rw [hcd]
  ring

theorem fadeInFactor_outside {mouse : ℝ × ℝ} {r : Rect} {size : ℝ × ℝ}
    (h : activationZone < edgeDist mouse r size) :
    calculateFadeInFactor mouse r size = 0 := by
  unfold calculateFadeInFactor
  by_cases hg : mouse.1 = 0 ∨ mouse.2 = 0
  · rw [if_pos hg]
  · rw [if_neg hg, if_pos h]

/-- C6 (pointer-over-center identity): for every elasticity, panel rect and
glass size, when the pointer is exactly at the panel center, or the pointer
is absent (a pointer coordinate of 0 is falsy in the source guards, which is
how the initial "no pointer" state reads), the estimator returns the
identity transform: translation (0, 0) and scale (1, 1). -/
theorem c6_pointer_center_identity (mouse : ℝ × ℝ) (r : Rect) (size : ℝ × ℝ)
    (elasticity : ℝ)
    (hc : mouse = (pillCenterX r, pillCenterY r) ∨ mouse.1 = 0 ∨ mouse.2 = 0) :
    calculateElasticTranslation mouse r size elasticity = (0, 0) ∧
    calculateDirectionalScale mouse r size elasticity = (1, 1) := by
  rcases hc with hc | hc
  · subst hc
    constructor
    · unfold calculateElasticTranslation
      simp
    · unfold calculateDirectionalScale
      split_ifs with h1 h2 h3
      · rfl
      · rfl
      · rfl
      · exact absurd (centerDist_self r) h3
  · constructor
    · unfold calculateElasticTranslation calculateFadeInFactor
      rw [if_pos hc]
      simp
    · unfold calculateDirectionalScale
      rw [if_pos hc]

theorem c6_pointer_center_identity_witness :
    ((5 : ℝ), (7 : ℝ)) = (pillCenterX (Rect.mk 1 3 8 8), pillCenterY (Rect.mk 1 3 8 8)) ∧
    calculateElasticTranslation (5, 7) (Rect.mk 1 3 8 8) (120, 40) (3/20) = (0, 0) ∧
    calculateDirectionalScale (5, 7) (Rect.mk 1 3 8 8) (120, 40) (3/20) = (1, 1) := by
  have hc : ((5 : ℝ), (7 : ℝ)) =
      (pillCenterX (Rect.mk 1 3 8 8), pillCenterY (Rect.mk 1 3 8 8)) := by
    unfold pillCenterX pillCenterY
    norm_num
  have h := c6_pointer_center_identity (5, 7) (Rect.mk 1 3 8 8) (120, 40) (3/20)
    (Or.inl hc)
  exact ⟨hc, h.1, h.2⟩

/-- C10 (zero pointer coordinate treated as absent): for every pointer
position with x = 0 or y = 0 (e.g. on the viewport's left or top edge), and
every panel rect, glass size and elasticity, `calculateDirectionalScale`
returns the identity scale and `calculateFadeInFactor` returns 0 — the
JavaScript falsy guard `!globalMousePos.x || !globalMousePos.y` fires even
when the pointer is inside the 200-unit activation zone. -/
theorem c10_zero_coordinate_absent (mouse : ℝ × ℝ) (r : Rect) (size : ℝ × ℝ)
    (elasticity : ℝ) (h : mouse.1 = 0 ∨ mouse.2 = 0) :
    calculateDirectionalScale mouse r size elasticity = (1, 1) ∧
    calculateFadeInFactor mouse r size = 0 := by
  unfold calculateDirectionalScale calculateFadeInFactor
  rw [if_pos h, if_pos h]
  exact ⟨rfl, rfl⟩

theorem c10_zero_coordinate_absent_witness :
    ((0 : ℝ) = 0 ∨ (500 : ℝ) = 0) ∧
    edgeDist (0, 500) (Rect.mk (-40) 450 100 100) (100, 100) ≤ activationZone ∧
    calculateDirectionalScale (0, 500) (Rect.mk (-40) 450 100 100) (100, 100) 1 = (1, 1) ∧
    calculateFadeInFactor (0, 500) (Rect.mk (-40) 450 100 100) (100, 100) = 0 := by
  have hin : edgeDist (0, 500) (Rect.mk (-40) 450 100 100) (100, 100) ≤ activationZone := by
    unfold edgeDist pillCenterX pillCenterY activationZone
    norm_num
  have h := c10_zero_coordinate_absent (0, 500) (Rect.mk (-40) 450 100 100)
    (100, 100) 1 (Or.inl rfl)
  exact ⟨Or.inl rfl, hin, h.1, h.2⟩

/-- C5 amended (elastic fade boundary): whenever the pointer's edge distance
to the panel's bounding box exceeds 200, the estimator returns the identity
transform; and for fixed elasticity > 0 and fixed panel, among pointer
positions at the SAME distance from the panel center, the translation
magnitude is strictly larger for the smaller edge distance.  (Without fixing
the center distance the magnitude is not monotone in edge distance — see the
counterexample.) -/
theorem c5_elastic_fade (r : Rect) (size : ℝ × ℝ) (e : ℝ) :
    (∀ mouse : ℝ × ℝ, activationZone < edgeDist mouse r size →
      calculateElasticTranslation mouse r size e = (0, 0) ∧
      calculateDirectionalScale mouse r size e = (1, 1)) ∧
    (∀ m₁ m₂ : ℝ × ℝ, 0 < e →
      ¬(m₁.1 = 0 ∨ m₁.2 = 0) → ¬(m₂.1 = 0 ∨ m₂.2 = 0) →
      centerDist m₁ r = centerDist m₂ r → 0 < centerDist m₁ r →
      edgeDist m₁ r size < edgeDist m₂ r size →
      edgeDist m₂ r size ≤ activationZone →
      magSq (calculateElasticTranslation m₂ r size e) <
        magSq (calculateElasticTranslation m₁ r size e)) := by
  constructor
  · intro mouse h
    constructor
    · unfold calculateElasticTranslation
      rw [fadeInFactor_outside h]
      simp
    · unfold calculateDirectionalScale
      by_cases h1 : mouse.1 = 0 ∨ mouse.2 = 0
      · rw [if_pos h1]
      · rw [if_neg h1, if_pos h]
  · intro m₁ m₂ he hg1 hg2 hcd hcd0 hlt hz2
    have hz1 : edgeDist m₁ r size ≤ activationZone := le_of_lt (lt_of_lt_of_le hlt hz2)
    rw [magSq_translation e hg2 hz2, magSq_translation e hg1 hz1, ← hcd]
    have hact : activationZone = 200 := rfl
    rw [hact] at hz1 hz2 ⊢
    have hf2 : 0 ≤ 1 - edgeDist m₂ r size / 200 := by linarith
    have hff : 1 - edgeDist m₂ r size / 200 < 1 - edgeDist m₁ r size / 200 := by linarith
    have hq : (0 : ℝ) < centerDist m₁ r ^ 2 * (e * 0.1) ^ 2 :=
      mul_pos (pow_pos hcd0 2) (pow_pos (by linarith) 2)
    calc centerDist m₁ r ^ 2 * (e * 0.1 * (1 - edgeDist m₂ r size / 200)) ^ 2
        = (centerDist m₁ r ^ 2 * (e * 0.1) ^ 2) * (1 - edgeDist m₂ r size / 200) ^ 2 := by
          ring
      _ < (centerDist m₁ r ^ 2 * (e * 0.1) ^ 2) * (1 - edgeDist m₁ r size / 200) ^ 2 := by
          apply mul_lt_mul_of_pos_left _ hq
          nlinarith
      _ = centerDist m₁ r ^ 2 * (e * 0.1 * (1 - edgeDist m₁ r size / 200)) ^ 2 := by
          ring

theorem ed_far : edgeDist (1500, 500) (Rect.mk 900 450 200 100) (200, 100) = 400 := by
  unfold edgeDist pillCenterX pillCenterY
  norm_num
  rw [show (160000 : ℝ) = 400^2 by norm_num, Real.sqrt_sq (by norm_num)]

theorem ed_m1 : edgeDist (1150, 500) (Rect.mk 900 450 200 100) (200, 100) = 50 := by
  unfold edgeDist pillCenterX pillCenterY
  norm_num
  rw [show (2500 : ℝ) = 50^2 by norm_num, Real.sqrt_sq (by norm_num)]

theorem ed_m2 : edgeDist (1000, 650) (Rect.mk 900 450 200 100) (200, 100) = 100 := by
  unfold edgeDist pillCenterX pillCenterY
  norm_num
  rw [show (10000 : ℝ) = 100^2 by norm_num, Real.sqrt_sq (by norm_num)]

theorem cd_m1 : centerDist (1150, 500) (Rect.mk 900 450 200 100) = 150 := by
  unfold centerDist pillCenterX pillCenterY
  norm_num
  rw [show (22500 : ℝ) = 150^2 by norm_num, Real.sqrt_sq (by norm_num)]

theorem cd_m2 : centerDist (1000, 650) (Rect.mk 900 450 200 100) = 150 := by
  unfold centerDist pillCenterX pillCenterY
  norm_num
  rw [show (22500 : ℝ) = 150^2 by norm_num, Real.sqrt_sq (by norm_num)]

theorem c5_elastic_fade_witness :
    activationZone < edgeDist (1500, 500) (Rect.mk 900 450 200 100) (200, 100) ∧
    (calculateElasticTranslation (1500, 500) (Rect.mk 900 450 200 100) (200, 100) 1 = (0, 0) ∧
     calculateDirectionalScale (1500, 500) (Rect.mk 900 450 200 100) (200, 100) 1 = (1, 1)) ∧
    magSq (calculateElasticTranslation (1000, 650) (Rect.mk 900 450 200 100) (200, 100) 1) <
      magSq (calculateElasticTranslation (1150, 500) (Rect.mk 900 450 200 100) (200, 100) 1) := by
  have hfar : activationZone < edgeDist (1500, 500) (Rect.mk 900 450 200 100) (200, 100) := by
    rw [ed_far]
    norm_num [activationZone]
  have hmain := c5_elastic_fade (Rect.mk 900 450 200 100) (200, 100) 1
  refine ⟨hfar, hmain.1 (1500, 500) hfar, ?_⟩
  refine hmain.2 (1150, 500) (1000, 650) (by norm_num) (by norm_num) (by norm_num)
    (by rw [cd_m1, cd_m2]) (by rw [cd_m1]; norm_num) ?_ ?_
  · rw [ed_m1, ed_m2]
    norm_num
  · rw [ed_m2]
    norm_num [activationZone]

theorem ced_near : edgeDist (1075, 500) (Rect.mk 950 450 100 100) (100, 100) = 25 := by
  unfold edgeDist pillCenterX pillCenterY
  norm_num
  rw [show (625 : ℝ) = 25^2 by norm_num, Real.sqrt_sq (by norm_num)]

theorem ced_far : edgeDist (1125, 500) (Rect.mk 950 450 100 100) (100, 100) = 75 := by
  unfold edgeDist pillCenterX pillCenterY
  norm_num
  rw [show (5625 : ℝ) = 75^2 by norm_num, Real.sqrt_sq (by norm_num)]

theorem ccd_near : centerDist (1075, 500) (Rect.mk 950 450 100 100) = 75 := by
  unfold centerDist pillCenterX pillCenterY
  norm_num
  rw [show (5625 : ℝ) = 75^2 by norm_num, Real.sqrt_sq (by norm_num)]

theorem ccd_far : centerDist (1125, 500) (Rect.mk 950 450 100 100) = 125 := by
  unfold centerDist pillCenterX pillCenterY
  norm_num
  rw [show (15625 : ℝ) = 125^2 by norm_num, Real.sqrt_sq (by norm_num)]

/-- C5 counterexample: for a fixed 100×100 panel centered at (1000, 500) and
elasticity 1, the pointer at (1075, 500) has edge distance 25 — strictly
smaller than the pointer at (1125, 500), whose edge distance is 75, both
inside the 200-unit activation zone — yet its translation magnitude is
strictly SMALLER, so the translation magnitude is not strictly increasing as
edge distance decreases (the magnitude is centerDistance·elasticity·0.1·
fadeIn and the shrinking center distance dominates the growing fade-in). -/
theorem c5_translation_counterexample :
    edgeDist (1075, 500) (Rect.mk 950 450 100 100) (100, 100) <
      edgeDist (1125, 500) (Rect.mk 950 450 100 100) (100, 100) ∧
    edgeDist (1125, 500) (Rect.mk 950 450 100 100) (100, 100) ≤ activationZone ∧
    magSq (calculateElasticTranslation (1075, 500) (Rect.mk 950 450 100 100) (100, 100) 1) <
      magSq (calculateElasticTranslation (1125, 500) (Rect.mk 950 450 100 100) (100, 100) 1) := by
  have hz1 : edgeDist (1075, 500) (Rect.mk 950 450 100 100) (100, 100) ≤ activationZone := by
    rw [ced_near]; norm_num [activationZone]
  have hz2 : edgeDist (1125, 500) (Rect.mk 950 450 100 100) (100, 100) ≤ activationZone := by
    rw [ced_far]; norm_num [activationZone]
  refine ⟨by rw [ced_near, ced_far]; norm_num, hz2, ?_⟩
  rw [magSq_translation 1 (by norm_num) hz1, magSq_translation 1 (by norm_num) hz2,
    ced_near, ced_far, ccd_near, ccd_far]
  norm_num [activationZone]

theorem cacheGet_set_self (st : List (String × String)) (k v : String) :
    cacheGet (cacheSet st k v) k = some v := by
  simp [cacheGet, cacheSet, List.find?]

/-- C3 amended (fallback behavior): on a fresh cache key, when field
generation or encoding fails, `generateDisplacementMap` returns the
placeholder GIF when the rasterizer throws or when the server-side encoder
fails — but returns the empty string (not the placeholder) when the DOM
canvas path fails (context unavailable or canvas exception), because
`createCanvasDataUrl` catches internally and returns `""`.  In every case
the result is an ordinary string: no exception propagates. -/
theorem c3_fallback_behavior (env : DispEnv) (st : List (String × String))
    (ty : String) (w h : ℕ)
    (hmiss : cacheGet st (mkCacheKey ty w h) = none) :
    (env.genThrows = true →
      (generateDisplacementMap env st ty w h).1 = placeholderGif) ∧
    (env.genThrows = false → env.hasDOM = false → env.serverThrows = true →
      (generateDisplacementMap env st ty w h).1 = placeholderGif) ∧
    (env.genThrows = false → env.hasDOM = true →
      (env.contextOk = false ∨ env.canvasThrows = true) →
      (generateDisplacementMap env st ty w h).1 = "") := by
  refine ⟨fun hg => ?_, fun hg hd hs => ?_, fun hg hd hcc => ?_⟩
  · simp [generateDisplacementMap, hmiss, generateCompute, generateTry, hg]
  · simp [generateDisplacementMap, hmiss, generateCompute, generateTry, hg,
      dataUrlOf, hd, createServerDataUrl, createServerDataUrlTry, hs]
  · rcases hcc with hc | hc
    · simp [generateDisplacementMap, hmiss, generateCompute, generateTry, hg,
        dataUrlOf, hd, createCanvasDataUrl, createCanvasDataUrlTry, hc]
    · cases hco : env.contextOk <;>
        simp [generateDisplacementMap, hmiss, generateCompute, generateTry, hg,
          dataUrlOf, hd, createCanvasDataUrl, createCanvasDataUrlTry, hc, hco]

theorem c3_fallback_behavior_witness :
    cacheGet [] (mkCacheKey "standard" 256 256) = none ∧
    envGenThrow.genThrows = true ∧
    (generateDisplacementMap envGenThrow [] "standard" 256 256).1 = placeholderGif :=
  ⟨rfl, rfl, (c3_fallback_behavior envGenThrow [] "standard" 256 256 rfl).1 rfl⟩

/-- C3 counterexample: in a browser-like environment whose canvas has no 2D
context, `generateDisplacementMap` returns the empty string, not the
well-known 1×1 placeholder data URI. -/
theorem c3_placeholder_counterexample :
    (generateDisplacementMap envNoCtx [] "standard" 256 256).1 = "" ∧
    (generateDisplacementMap envNoCtx [] "standard" 256 256).1 ≠ placeholderGif :=
  ⟨rfl, by decide⟩

theorem generateCompute_result (env : DispEnv) (st : List (String × String))
    (key : String) (hg : env.genThrows = false) :
    generateCompute env st key =
      (dataUrlOf env key, cacheSet st key (dataUrlOf env key), 1) := by
  simp [generateCompute, generateTry, hg]

theorem generateCompute_throw (env : DispEnv) (st : List (String × String))
    (key : String) (hg : env.genThrows = true) :
    generateCompute env st key = (placeholderGif, st, 1) := by
  simp [generateCompute, generateTry, hg]

theorem generateDisplacementMap_miss {env : DispEnv} {st : List (String × String)}
    {ty : String} {w h : ℕ} (hc : cacheGet st (mkCacheKey ty w h) = none) :
    generateDisplacementMap env st ty w h =
      generateCompute env st (mkCacheKey ty w h) := by
  simp [generateDisplacementMap, hc]

theorem generateDisplacementMap_empty {env : DispEnv} {st : List (String × String)}
    {ty : String} {w h : ℕ} (hc : cacheGet st (mkCacheKey ty w h) = some "") :
    generateDisplacementMap env st ty w h =
      generateCompute env st (mkCacheKey ty w h) := by
  simp [generateDisplacementMap, hc]

theorem generateDisplacementMap_hit {env : DispEnv} {st : List (String × String)}
    {ty : String} {w h : ℕ} {v : String}
    (hc : cacheGet st (mkCacheKey ty w h) = some v) (hv : v ≠ "") :
    generateDisplacementMap env st ty w h = (v, st, 0) := by
  simp [generateDisplacementMap, hc, hv]

/-- C4 amended (cache idempotence): two successive calls with the same
(type, width, height) key always return the same string; and the second call
performs no rasterizer invocation provided the rasterizer did not throw and
the produced data URL is nonempty.  (When the first call produced `""` — the
DOM canvas failure path — the empty string is cached but `if (cached)` is
falsy, so the second call recomputes; when the rasterizer throws, nothing is
cached and the second call recomputes as well.) -/
theorem c4_cache_idempotence (env : DispEnv) (st : List (String × String))
    (ty : String) (w h : ℕ) :
    (generateDisplacementMap env ((generateDisplacementMap env st ty w h).2.1) ty w h).1 =
      (generateDisplacementMap env st ty w h).1 ∧
    (env.genThrows = false → (generateDisplacementMap env st ty w h).1 ≠ "" →
      (generateDisplacementMap env ((generateDisplacementMap env st ty w h).2.1) ty w h).2.2 = 0) := by
  have main : ∀ (_ : generateDisplacementMap env st ty w h =
      generateCompute env st (mkCacheKey ty w h)),
      (generateDisplacementMap env ((generateDisplacementMap env st ty w h).2.1) ty w h).1 =
        (generateDisplacementMap env st ty w h).1 ∧
      (env.genThrows = false → (generateDisplacementMap env st ty w h).1 ≠ "" →
        (generateDisplacementMap env ((generateDisplacementMap env st ty w h).2.1) ty w h).2.2 = 0) := by
    intro hmiss
    cases hg : env.genThrows
    · rw [hmiss, generateCompute_result env st _ hg]
      by_cases hu : dataUrlOf env (mkCacheKey ty w h) = ""
      · have hc2 : cacheGet (cacheSet st (mkCacheKey ty w h) (dataUrlOf env (mkCacheKey ty w h)))
            (mkCacheKey ty w h) = some "" := by
          rw [cacheGet_set_self, hu]
        constructor
        · show (generateDisplacementMap env (cacheSet st _ _) ty w h).1 = _
          rw [generateDisplacementMap_empty hc2, generateCompute_result env _ _ hg]
        · intro _ hne
          exact absurd hu hne
      · have hc2 := cacheGet_set_self st (mkCacheKey ty w h) (dataUrlOf env (mkCacheKey ty w h))
        constructor
        · show (generateDisplacementMap env (cacheSet st _ _) ty w h).1 = _
          rw [generateDisplacementMap_hit hc2 hu]
        · intro _ _
          show (generateDisplacementMap env (cacheSet st _ _) ty w h).2.2 = 0
          rw [generateDisplacementMap_hit hc2 hu]
    · rw [hmiss, generateCompute_throw env st _ hg]
      constructor
      · show (generateDisplacementMap env st ty w h).1 = _
        rw [hmiss, generateCompute_throw env st _ hg]
      · intro hfalse
        exact absurd hfalse (by decide)
  cases hc : cacheGet st (mkCacheKey ty w h) with
  | none => exact main (generateDisplacementMap_miss hc)
  | some v =>
      by_cases hv : v = ""
      · subst hv
        exact main (generateDisplacementMap_empty hc)
      · rw [generateDisplacementMap_hit hc hv]
        constructor
        · rw [generateDisplacementMap_hit hc hv]
        · intro _ _
          rw [generateDisplacementMap_hit hc hv]

theorem c4_cache_idempotence_witness :
    (envOk.genThrows = false ∧
      (generateDisplacementMap envOk [] "standard" 256 256).1 ≠ "") ∧
    (generateDisplacementMap envOk
        ((generateDisplacementMap envOk [] "standard" 256 256).2.1) "standard" 256 256).1 =
      (generateDisplacementMap envOk [] "standard" 256 256).1 ∧
    (generateDisplacementMap envOk
        ((generateDisplacementMap envOk [] "standard" 256 256).2.1) "standard" 256 256).2.2 = 0 :=
  ⟨⟨rfl, by decide⟩, (c4_cache_idempotence envOk [] "standard" 256 256).1,
    (c4_cache_idempotence envOk [] "standard" 256 256).2 rfl (by decide)⟩

/-- C4 counterexample: in an environment where the canvas 2D context is
unavailable, the first call caches `""`; `if (cached)` is falsy on the empty
string, so the second call with the same key invokes the rasterizer again
(invocation count 1, not 0), even though both calls return the identical
string. -/
theorem c4_recompute_counterexample :
    (generateDisplacementMap envNoCtx [] "standard" 256 256).1 = "" ∧
    (generateDisplacementMap envNoCtx
        ((generateDisplacementMap envNoCtx [] "standard" 256 256).2.1) "standard" 256 256).1 = "" ∧
    (generateDisplacementMap envNoCtx
        ((generateDisplacementMap envNoCtx [] "standard" 256 256).2.1) "standard" 256 256).2.2 = 1 :=
  ⟨rfl, rfl, rfl⟩

theorem processBurst_some (es : List MouseEv) (x : MouseEv) :
    processBurst es (some x) = some x := by
  induction es with
  | nil => rfl
  | cons e es ih =>
      simp only [processBurst, List.foldl_cons, handleMouseMove]
      exact ih

/-- C9 amended (pointer-event coalescing): when a burst of pointer-move
events arrives before the next frame boundary with no callback pending,
exactly one recomputation happens at that frame, and it uses the
`(clientX, clientY)` of the FIRST event of the burst — `handleMouseMove`
returns early while a `requestAnimationFrame` callback is pending, so the
later events of the burst are dropped, not coalesced into the callback. -/
theorem c9_frame_coalescing (e : MouseEv) (es : List MouseEv) :
    processBurst (e :: es) none = some e ∧
    frameRecomputations (processBurst (e :: es) none) = 1 ∧
    frameData (processBurst (e :: es) none) = some (e.clientX, e.clientY) := by
  have h : processBurst (e :: es) none = some e := by
    simp only [processBurst, List.foldl_cons]
    exact processBurst_some es e
  exact ⟨h, by rw [h]; rfl, by rw [h]; rfl⟩

/-- C9 counterexample: for the two-event burst (10, 20), (30, 40), the frame
recomputation uses (10, 20) — the data of the first event — and not the data
(30, 40) of the latest event. -/
theorem c9_latest_event_counterexample :
    frameData (processBurst [MouseEv.mk 10 20, MouseEv.mk 30 40] none) = some (10, 20) ∧
    ¬frameData (processBurst [MouseEv.mk 10 20, MouseEv.mk 30 40] none) = some (30, 40) ∧
    [MouseEv.mk 10 20, MouseEv.mk 30 40].getLast? = some (MouseEv.mk 30 40) := by
  decide

end LiquidGlass
